import Mathlib

/-!
Verification of the `db_qa_diff` staging-and-diff pipeline
(`src/db_qa_diff/__init__.py`), shallowly embedded in Lean 4.

Tables are modelled relationally: a reflected schema is a list of
`Column`s (name and type), a table's contents is a list of rows, each row
a list of values aligned positionally with the schema.  SQL `EXCEPT` is
the distinct rows of the left result absent from the right.  The DBAPI
driver's `rowcount` attribute for a `SELECT` is an `Int` (drivers may
report `-1`), supplied as a parameter where the code consumes it.
-/

namespace DbQaDiff

/-- A reflected column: name and type, as produced by schema reflection. -/
structure Column where
  name : String
  ctype : String
deriving DecidableEq, Repr

/-- `_create_table1_in_engine2` (lines 25–34): builds the staging (TEMP)
table definition in engine2.  It iterates `b.table2.c` (the *target*
table's reflected columns), keeping each column whose name is not in
`b.drop_cols`, preserving order and type, and names the table
`f'{b.table1}_table1_in_engine2'`.  The source table contributes only its
(qualified) name; `table1cols` is carried in the bucket but unused. -/
def create_table1_in_engine2 (table1cols : List Column) (table1qualname : String)
    (table2cols : List Column) (drop_cols : List String) : String × List Column :=
  let _ := table1cols
  (table1qualname ++ "_table1_in_engine2",
   table2cols.filter (fun col => ¬ col.name ∈ drop_cols))

/-- A per-table ignore value in `ignore_cols`: Python allows a single
column name or a list/tuple of names as the dict value. -/
inductive IgnoreVal where
  | single (s : String)
  | many (l : List String)
deriving DecidableEq, Repr

/-- The names contributed by an `ignore_cols` dict value:
`extend(v)` for a list/tuple, `append(v)` for a single name. -/
def IgnoreVal.names : IgnoreVal → List String
  | .single s => [s]
  | .many l => l

/-- One entry of the `*tables` argument of `recorddiff`: a Python value
that is a `str`, some other `Sequence` (a list/tuple of names), or a
value of any other type. -/
inductive EntrySpec where
  | str (s : String)
  | seq (l : List String)
  | other
deriving DecidableEq, Repr

/-- The table names the entry is iterated over in `_create_drop_cols`
(a `str` entry is first wrapped as a one-element list).  A non-sequence
entry never reaches `_create_drop_cols`: `recorddiff` raises first. -/
def EntrySpec.tableNames : EntrySpec → List String
  | .str s => [s]
  | .seq l => l
  | .other => []

/-- Python `str.lower()` on the (ASCII) column names involved: lower-case
every character. -/
def lower (s : String) : String := ⟨s.data.map Char.toLower⟩

/-- `_create_drop_cols` (lines 58–73): lower-cases the global ignore
list, then walks the `ignore_cols` dict in order and, for each table
name of the entry that equals the key, appends that key's value's
names; returns the concatenation (a Python `list`). -/
def create_drop_cols (ignore_all : List String)
    (ignore_cols : List (String × IgnoreVal)) (entry : EntrySpec) : List String :=
  (ignore_all.map lower) ++
    ignore_cols.flatMap (fun kv =>
      entry.tableNames.flatMap (fun table =>
        if kv.1 = table then kv.2.names else []))

/-- Chunks yielded by `result.mappings().partitions()` under
`yield_per=n`: successive runs of at most `n` rows covering the result,
with no empty chunk.  A batch size of `0` is modelled as yielding no
partitions (the code always uses `n = 15000`). -/
def partitions (n : Nat) (rows : List β) : List (List β) :=
  if h : rows.isEmpty ∨ n = 0 then []
  else rows.take n :: partitions n (rows.drop n)
termination_by rows.length
decreasing_by
  simp only [not_or, List.isEmpty_iff] at h
  have h1 : 1 ≤ n := Nat.one_le_iff_ne_zero.mpr h.2
  have h2 : rows.length ≠ 0 := fun hl => h.1 (List.eq_nil_of_length_eq_zero hl)
  simp only [List.length_drop]
  omega

/-- Outcome of `_copy_table1_to_engine2` (lines 37–55): the final
`rows_inserted` accumulator, the rows now in the staging table, and the
progress lines printed — one `(rows_inserted, row_count)` pair per
partition, whose percentage the code renders as
`rows_inserted / row_count`. -/
structure CopyResult (β : Type) where
  rows_inserted : Nat
  staged : List β
  progress : List (Nat × Nat)
deriving Repr

/-- `_copy_table1_to_engine2` (lines 37–55): counts the source rows
(`row_count`), streams the source `SELECT` in partitions of at most `n`
rows, executes one batch `INSERT` per partition, accumulates
`rows_inserted`, and prints one progress line per partition. -/
def copy_table1_to_engine2 (n : Nat) (rows : List β) : CopyResult β :=
  let row_count := rows.length
  let parts := partitions n rows
  { rows_inserted := parts.foldl (fun acc p => acc + p.length) 0
    staged := parts.flatten
    progress := ((parts.scanl (fun acc p => acc + p.length) 0).tail).map
      (fun t => (t, row_count)) }

/-- SQL `EXCEPT`: the distinct rows of the left result that do not occur
in the right result (multiset-collapsing set difference). -/
def except_sql [DecidableEq β] (l r : List β) : List β :=
  l.dedup.filter (fun row => ¬ row ∈ r)

/-- The projection `sa.select(*table_2_cols)` applies to a target-table
row: keep the values whose column name is not dropped, in schema order. -/
def projectRow (table2cols : List Column) (drop_cols : List String)
    (row : List α) : List α :=
  (table2cols.zip row).filterMap
    (fun cv => if cv.1.name ∈ drop_cols then none else some cv.2)

/-- What `_compare_tables` (lines 76–102) computes and prints.
`appearShownCount` is `max(rv_appear.rowcount, 0)`, `appearShownPct` is
`max(rv_appear.rowcount / max(table2_nrows, 1), 0)`, `appearShownDen`
is the `of {table2_nrows} rows` figure, and `appearPctDen` the actual
divisor `max(table2_nrows, 1)`; likewise for the disappear direction
with `table1_in_engine2_nrows`. -/
structure CompareResult (α : Type) where
  exceptQueries : List (List (List α) × List (List α))
  projectionCols : List Column
  appear : List (List α)
  disappear : List (List α)
  appearSample : List (List α)
  disappearSample : List (List α)
  table2_nrows : Nat
  staging_nrows : Nat
  appearShownCount : Int
  appearShownPct : ℚ
  appearShownDen : Nat
  appearPctDen : ℚ
  disappearShownCount : Int
  disappearShownPct : ℚ
  disappearShownDen : Nat
  disappearPctDen : ℚ

/-- `_compare_tables` (lines 76–102): projects the target table onto the
non-dropped columns, runs
`(select *table_2_cols) EXCEPT (select staging)` and
`(select staging) EXCEPT (select *table_2_cols)`, fetches at most 5
sample rows per direction, counts the staging table and the target
table, and renders each direction's count and percentage with the
`max(·, 0)` / `max(·, 1)` clamps of lines 94 and 99.  `rcAppear` and
`rcDisappear` are the driver-reported `rowcount`s of the two `EXCEPT`
result sets. -/
def compare_tables [DecidableEq α] (table2cols : List Column)
    (drop_cols : List String) (table2rows stagingRows : List (List α))
    (rcAppear rcDisappear : Int) : CompareResult α :=
  let proj := table2rows.map (projectRow table2cols drop_cols)
  let appear := except_sql proj stagingRows
  let disappear := except_sql stagingRows proj
  let table2_nrows := table2rows.length
  let staging_nrows := stagingRows.length
  { exceptQueries := [(proj, stagingRows), (stagingRows, proj)]
    projectionCols := table2cols.filter (fun col => ¬ col.name ∈ drop_cols)
    appear := appear
    disappear := disappear
    appearSample := appear.take 5
    disappearSample := disappear.take 5
    table2_nrows := table2_nrows
    staging_nrows := staging_nrows
    appearShownCount := max rcAppear 0
    appearShownPct := max ((rcAppear : ℚ) / ((max table2_nrows 1 : Nat) : ℚ)) 0
    appearShownDen := table2_nrows
    appearPctDen := ((max table2_nrows 1 : Nat) : ℚ)
    disappearShownCount := max rcDisappear 0
    disappearShownPct := max ((rcDisappear : ℚ) / ((max staging_nrows 1 : Nat) : ℚ)) 0
    disappearShownDen := staging_nrows
    disappearPctDen := ((max staging_nrows 1 : Nat) : ℚ) }

/-- Errors `recorddiff` can raise while handling one `tables` entry. -/
inductive RunError where
  | typeError
  | assertionError
  | noSuchTable (name : String)
deriving DecidableEq, Repr

/-- The entry-shape dispatch of `recorddiff` (lines 134–141):
a `str` names both tables; any other `Sequence` must have length 2
(`assert len(entry) == 2`, an `AssertionError` otherwise) and supplies
`(t1name, t2name)`; any other type raises `TypeError`. -/
def parse_entry : EntrySpec → Except RunError (String × String)
  | .str s => .ok (s, s)
  | .seq l =>
      if h : l.length = 2 then
        .ok (l.get ⟨0, by omega⟩, l.get ⟨1, by omega⟩)
      else .error .assertionError
  | .other => .error .typeError

/-- One observable database operation performed while processing a
single `tables` entry.  `txnBegin e`/`txnCommit e` delimit a transaction
on engine `e` (1 = source, 2 = target).  `insertBatch` and
`exceptQuery` always run on the target connection. -/
inductive Ev where
  | reflectTable (engine : Nat)
  | createStaging
  | txnBegin (engine : Nat)
  | txnCommit (engine : Nat)
  | countQuery (engine : Nat)
  | selectAll (engine : Nat)
  | insertBatch
  | exceptQuery
  | dropStaging
deriving DecidableEq, Repr

/-- The database operations `recorddiff` performs, in program order, for
one entry that parses and reflects successfully (lines 143–172):
reflect `table1` against engine1 and `table2` against engine2;
`table1_in_engine2.create(bind=b.engine2)` — an engine-level DDL
execution, which checks out its own connection and commits (lines 31–33
via 167); then `engine1.begin()` and `engine2.begin()`; the copy (count
and streaming select on conn1, one batch insert on conn2 per partition);
the comparison (staging count, appear `EXCEPT`, target count, disappear
`EXCEPT`, all on conn2); then the `with`-block commits (conn2 first).
`nBatches` is the number of non-empty partitions the copy yields. -/
def success_trace (nBatches : Nat) : List Ev :=
  .reflectTable 1 :: .reflectTable 2 ::
  .txnBegin 2 :: .createStaging :: .txnCommit 2 ::
  .txnBegin 1 :: .txnBegin 2 ::
  .countQuery 1 :: .selectAll 1 ::
  (List.replicate nBatches .insertBatch ++
    [.countQuery 2, .exceptQuery, .countQuery 2, .exceptQuery,
     .txnCommit 2, .txnCommit 1])

/-- `process_entry`: the per-entry behaviour of `recorddiff`'s loop body
(lines 132–172), as the list of database operations performed and the
error raised, if any.  `exists1`/`exists2` model catalog resolution of a
table name against engine1/engine2 (`sa.Table(..., autoload_with=...)`
raising `NoSuchTableError` when absent). -/
def process_entry (e : EntrySpec) (exists1 exists2 : String → Bool)
    (nBatches : Nat) : List Ev × Option RunError :=
  match parse_entry e with
  | .error err => ([], some err)
  | .ok (t1, t2) =>
      if exists1 t1 = false then ([.reflectTable 1], some (.noSuchTable t1))
      else if exists2 t2 = false then
        ([.reflectTable 1, .reflectTable 2], some (.noSuchTable t2))
      else (success_trace nBatches, none)

/-- The index of the target-engine transaction an event at position `i`
of a trace belongs to: the number of `txnBegin 2` events up to and
including position `i`. -/
def txn2Of (tr : List Ev) (i : Nat) : Nat :=
  (tr.take (i + 1)).count (Ev.txnBegin 2)

/-! ## Supporting lemmas -/

theorem flatten_length_foldl (l : List (List β)) (a : Nat) :
    l.foldl (fun acc p => acc + p.length) a = a + l.flatten.length := by
  induction l generalizing a with
  | nil => simp
  | cons p rest ih => simp [List.foldl_cons, ih, List.flatten_cons]; omega

theorem partitions_flatten (n : Nat) (hn : 1 ≤ n) (rows : List β) :
    (partitions n rows).flatten = rows := by
  generalize hL : rows.length = L
  induction L using Nat.strong_induction_on generalizing rows with
  | _ L ih =>
    rw [partitions]
    by_cases he : rows.isEmpty
    · simp [he, List.isEmpty_iff.mp he]
    · have hcond : ¬ (rows.isEmpty = true ∨ n = 0) := by
        push_neg
        exact ⟨he, by omega⟩
      rw [dif_neg hcond]
      have hne : rows ≠ [] := fun h => he (by simp [h])
      have hlen : (rows.drop n).length < L := by
        subst hL
        simp only [List.length_drop]
        have : rows.length ≠ 0 := fun h => hne (List.eq_nil_of_length_eq_zero h)
        omega
      rw [List.flatten_cons, ih (rows.drop n).length hlen (rows.drop n) rfl]
      exact List.take_append_drop n rows

/-! ## Claims -/

/-- C2: for every table-pair (whatever the source table's name and
schema), the staging table's column list is exactly the target table's
reflected columns whose names are not excluded, preserving the target
schema's order and types, and the source table's schema contributes no
columns to the staging definition. -/
theorem C2_staging_mirrors_target (t1cols : List Column) (t1name : String)
    (t2cols : List Column) (drop : List String) :
    ((create_table1_in_engine2 t1cols t1name t2cols drop).2).Sublist t2cols
    ∧ (∀ c : Column, c ∈ (create_table1_in_engine2 t1cols t1name t2cols drop).2 ↔
        c ∈ t2cols ∧ ¬ c.name ∈ drop)
    ∧ (∀ (t1cols₂ : List Column) (t1name₂ : String),
        (create_table1_in_engine2 t1cols₂ t1name₂ t2cols drop).2
          = (create_table1_in_engine2 t1cols t1name t2cols drop).2) := by
  refine ⟨List.filter_sublist _, fun c => ?_, fun _ _ => rfl⟩
  simp [create_table1_in_engine2, List.mem_filter]

/-- C3 counterexample: the computed exclusion collection produced by
`_create_drop_cols` is a Python list, not a set.  With global ignore
`["a"]` and per-table ignore `{"t": "a"}` for table `"t"` the result is
`["a", "a"]` — it has a duplicate; and with global ignore `["A"]` and
per-table ignore `{"t": "BAR"}` the per-table entry `"BAR"` is not
case-normalized.  This refutes the claim that the collection is
case-normalized and free of duplicates. -/
theorem C3_counterexample :
    create_drop_cols ["a"] [("t", IgnoreVal.single "a")] (EntrySpec.str "t") = ["a", "a"]
    ∧ ¬ (create_drop_cols ["a"] [("t", IgnoreVal.single "a")] (EntrySpec.str "t")).Nodup
    ∧ ¬ (∀ x ∈ create_drop_cols ["A"] [("t", IgnoreVal.single "BAR")] (EntrySpec.str "t"),
          x = lower x) := by
  refine ⟨by decide, by decide, fun h => ?_⟩
  have := h "BAR" (by decide)
  exact absurd this (by decide)

/-- C3 amended: the computed exclusion collection is a list — the
case-folded global ignore entries followed by the per-table entries
taken verbatim (not case-folded), possibly with duplicates — and its
members are exactly the union of the case-folded global ignore entries
and the per-table entries whose key equals one of the table-spec's
names (per-table values being a single name or a collection of
names). -/
theorem C3_amended_membership (ig : List String) (ic : List (String × IgnoreVal))
    (e : EntrySpec) (x : String) :
    x ∈ create_drop_cols ig ic e ↔
      (∃ g ∈ ig, x = lower g)
      ∨ (∃ kv ∈ ic, kv.1 ∈ e.tableNames ∧ x ∈ kv.2.names) := by
  simp only [create_drop_cols, List.mem_append, List.mem_map, List.mem_flatMap]
  constructor
  · rintro (⟨g, hg, rfl⟩ | ⟨kv, hkv, t, ht, hx⟩)
    · exact Or.inl ⟨g, hg, rfl⟩
    · rcases Decidable.em (kv.1 = t) with heq | hne
      · rw [if_pos heq] at hx
        exact Or.inr ⟨kv, hkv, heq ▸ ht, hx⟩
      · rw [if_neg hne] at hx
        exact absurd hx (List.not_mem_nil x)
  · rintro (⟨g, hg, rfl⟩ | ⟨kv, hkv, hk, hx⟩)
    · exact Or.inl ⟨g, hg, rfl⟩
    · exact Or.inr ⟨kv, hkv, kv.1, hk, by rw [if_pos rfl]; exact hx⟩

/-- C9: a `tables` entry that is neither a string nor a 2-element
sequence makes `recorddiff` raise for that entry (`TypeError` for a
non-sequence value, `AssertionError` for a sequence of length ≠ 2)
before any database operation — reflection, staging, or transfer —
is performed for it. -/
theorem C9_malformed_entry_fails_early (exists1 exists2 : String → Bool)
    (nBatches : Nat) :
    (∀ l : List String, l.length ≠ 2 →
      process_entry (EntrySpec.seq l) exists1 exists2 nBatches
        = ([], some RunError.assertionError))
    ∧ process_entry EntrySpec.other exists1 exists2 nBatches
        = ([], some RunError.typeError) := by
  refine ⟨fun l hl => ?_, rfl⟩
  simp [process_entry, parse_entry, hl]

/-- Witness for C9 at the concrete inputs `["a", "b", "c"]` (a
3-element sequence) and a non-sequence entry. -/
theorem C9_malformed_entry_fails_early_witness :
    process_entry (EntrySpec.seq ["a", "b", "c"]) (fun _ => true) (fun _ => true) 3
      = ([], some RunError.assertionError)
    ∧ process_entry EntrySpec.other (fun _ => true) (fun _ => true) 3
      = ([], some RunError.typeError) :=
  ⟨(C9_malformed_entry_fails_early (fun _ => true) (fun _ => true) 3).1
      ["a", "b", "c"] (by decide),
   (C9_malformed_entry_fails_early (fun _ => true) (fun _ => true) 3).2⟩

/-- C1: for every table-pair and exclusion set, the comparator issues
exactly two set-difference queries on the target engine — appeared =
(target projection minus excluded columns) `EXCEPT` (all staging
columns), disappeared = (all staging columns) `EXCEPT` (the same target
projection) — captures at most 5 sample rows per direction, and uses
the target table's row count as the appeared-percentage denominator and
the staging table's row count as the disappeared-percentage
denominator. -/
theorem C1_two_except_queries [DecidableEq α] (t2cols : List Column)
    (drop : List String) (t2rows stg : List (List α)) (rcA rcD : Int) (n : Nat) :
    let r := compare_tables t2cols drop t2rows stg rcA rcD
    r.exceptQueries = [(t2rows.map (projectRow t2cols drop), stg),
                       (stg, t2rows.map (projectRow t2cols drop))]
    ∧ r.exceptQueries.length = 2
    ∧ (success_trace n).count Ev.exceptQuery = 2
    ∧ r.appear = except_sql (t2rows.map (projectRow t2cols drop)) stg
    ∧ r.disappear = except_sql stg (t2rows.map (projectRow t2cols drop))
    ∧ r.appearSample = r.appear.take 5 ∧ r.appearSample.length ≤ 5
    ∧ r.disappearSample = r.disappear.take 5 ∧ r.disappearSample.length ≤ 5
    ∧ r.appearShownDen = t2rows.length
    ∧ r.appearPctDen = ((max t2rows.length 1 : Nat) : ℚ)
    ∧ r.disappearShownDen = stg.length
    ∧ r.disappearPctDen = ((max stg.length 1 : Nat) : ℚ) := by
  refine ⟨rfl, rfl, ?_, rfl, rfl, rfl, ?_, rfl, ?_, rfl, rfl, rfl, rfl⟩
  · simp [success_trace, List.count_cons, List.count_append, List.count_replicate]
  · simpa [compare_tables] using
      le_trans (List.length_take_le 5 _) (le_refl 5)
  · simpa [compare_tables] using
      le_trans (List.length_take_le 5 _) (le_refl 5)

/-- C10: the rendered appeared/disappeared counts are never negative
and the percentage division never divides by zero, even when the DBAPI
driver reports `rowcount = -1` for a `SELECT`: line 94 and line 99
clamp each direction's rowcount to a minimum of 0 and each percentage
denominator to a minimum of 1 before rendering. -/
theorem C10_rowcount_clamping [DecidableEq α] (t2cols : List Column)
    (drop : List String) (t2rows stg : List (List α)) (rcA rcD : Int) :
    let r := compare_tables t2cols drop t2rows stg rcA rcD
    0 ≤ r.appearShownCount ∧ 0 ≤ r.disappearShownCount
    ∧ 0 ≤ r.appearShownPct ∧ 0 ≤ r.disappearShownPct
    ∧ 1 ≤ r.appearPctDen ∧ 1 ≤ r.disappearPctDen
    ∧ r.appearShownCount = max rcA 0
    ∧ r.disappearShownCount = max rcD 0
    ∧ r.appearShownPct = ((max rcA 0 : Int) : ℚ) / r.appearPctDen
    ∧ r.disappearShownPct = ((max rcD 0 : Int) : ℚ) / r.disappearPctDen := by
  have hden : ∀ m : Nat, (1 : ℚ) ≤ ((max m 1 : Nat) : ℚ) := by
    intro m
    exact_mod_cast Nat.le_max_right m 1
  have hclamp : ∀ (a : Int) (m : Nat),
      max ((a : ℚ) / ((max m 1 : Nat) : ℚ)) 0
        = ((max a 0 : Int) : ℚ) / ((max m 1 : Nat) : ℚ) := by
    intro a m
    have hpos : (0 : ℚ) < ((max m 1 : Nat) : ℚ) := lt_of_lt_of_le one_pos (hden m)
    rw [show (0 : ℚ) = 0 / ((max m 1 : Nat) : ℚ) by rw [zero_div]]
    rw [max_div_div_right hpos.le]
    push_cast
    rfl
  refine ⟨le_max_right _ _, le_max_right _ _, le_max_right _ _, le_max_right _ _,
    hden _, hden _, rfl, rfl, ?_, ?_⟩
  · exact hclamp rcA t2rows.length
  · exact hclamp rcD stg.length

/-- C7: for every comparison in which the target table and/or the
staging table is empty, the comparator does not raise: a direction
whose percentage-denominator table is empty has an empty difference
result set (an ordinary value, not an error), and — with the DBAPI
driver reporting a nonpositive rowcount (0 or -1) for that empty
`EXCEPT` result — that direction renders "0 … (0.0% of 0 rows)"; in
particular two empty tables render so in both directions.  For every
comparison the divisors actually used are at least 1, so the percentage
never divides by zero. -/
theorem C7_empty_tables_safe [DecidableEq α] (t2cols : List Column)
    (drop : List String) (t2rows stg : List (List α)) (rcA rcD : Int) :
    let r := compare_tables t2cols drop t2rows stg rcA rcD
    (t2rows = [] → r.appear = [] ∧ (rcA ≤ 0 →
      r.appearShownCount = 0 ∧ r.appearShownPct = 0 ∧ r.appearShownDen = 0))
    ∧ (stg = [] → r.disappear = [] ∧ (rcD ≤ 0 →
      r.disappearShownCount = 0 ∧ r.disappearShownPct = 0 ∧ r.disappearShownDen = 0))
    ∧ 1 ≤ r.appearPctDen ∧ 1 ≤ r.disappearPctDen := by
  have hden : ∀ m : Nat, (1 : ℚ) ≤ ((max m 1 : Nat) : ℚ) := by
    intro m
    exact_mod_cast Nat.le_max_right m 1
  have h1 : ∀ a : Int, a ≤ 0 → max ((a : ℚ) / ((max (0 : Nat) 1 : Nat) : ℚ)) 0 = 0 := by
    intro a ha
    have : ((a : ℚ) / ((max (0 : Nat) 1 : Nat) : ℚ)) ≤ 0 := by
      simp only [Nat.max_self, Nat.zero_max, Nat.cast_one, div_one]
      exact_mod_cast ha
    exact max_eq_right this
  refine ⟨fun h2 => ?_, fun hs => ?_, hden _, hden _⟩
  · subst h2
    refine ⟨by simp [compare_tables, except_sql], fun hA => ⟨?_, ?_, rfl⟩⟩
    · simpa [compare_tables] using max_eq_right hA
    · simpa [compare_tables] using h1 rcA hA
  · subst hs
    refine ⟨by simp [compare_tables, except_sql], fun hD => ⟨?_, ?_, rfl⟩⟩
    · simpa [compare_tables] using max_eq_right hD
    · simpa [compare_tables] using h1 rcD hD

/-- Witness for C7 in the two-empty-tables case (driver rowcounts `-1`
and `0`) and in a mixed case: empty staging table against a one-row
target table, where only the disappeared denominator is 0 (driver
rowcount `-1` for the empty disappear result). -/
theorem C7_empty_tables_safe_witness :
    ((compare_tables [] [] ([] : List (List Nat)) [] (-1) 0).appear = []
     ∧ (compare_tables [] [] ([] : List (List Nat)) [] (-1) 0).appearShownCount = 0
     ∧ (compare_tables [] [] ([] : List (List Nat)) [] (-1) 0).appearShownPct = 0
     ∧ (compare_tables [] [] ([] : List (List Nat)) [] (-1) 0).appearShownDen = 0
     ∧ (compare_tables [] [] ([] : List (List Nat)) [] (-1) 0).disappear = []
     ∧ (compare_tables [] [] ([] : List (List Nat)) [] (-1) 0).disappearShownCount = 0
     ∧ (compare_tables [] [] ([] : List (List Nat)) [] (-1) 0).disappearShownPct = 0
     ∧ (compare_tables [] [] ([] : List (List Nat)) [] (-1) 0).disappearShownDen = 0)
    ∧ ((compare_tables [{ name := "a", ctype := "int" }] [] [[1]]
          ([] : List (List Nat)) 5 (-1)).disappear = []
     ∧ (compare_tables [{ name := "a", ctype := "int" }] [] [[1]]
          ([] : List (List Nat)) 5 (-1)).disappearShownCount = 0
     ∧ (compare_tables [{ name := "a", ctype := "int" }] [] [[1]]
          ([] : List (List Nat)) 5 (-1)).disappearShownPct = 0
     ∧ (compare_tables [{ name := "a", ctype := "int" }] [] [[1]]
          ([] : List (List Nat)) 5 (-1)).disappearShownDen = 0
     ∧ 1 ≤ (compare_tables [{ name := "a", ctype := "int" }] [] [[1]]
          ([] : List (List Nat)) 5 (-1)).appearPctDen
     ∧ 1 ≤ (compare_tables [{ name := "a", ctype := "int" }] [] [[1]]
          ([] : List (List Nat)) 5 (-1)).disappearPctDen) := by
  have hboth := C7_empty_tables_safe [] [] ([] : List (List Nat)) [] (-1) 0
  have hmix := C7_empty_tables_safe [{ name := "a", ctype := "int" }] []
    [[1]] ([] : List (List Nat)) 5 (-1)
  refine ⟨⟨(hboth.1 rfl).1,
    ((hboth.1 rfl).2 (by decide)).1,
    ((hboth.1 rfl).2 (by decide)).2.1,
    ((hboth.1 rfl).2 (by decide)).2.2,
    (hboth.2.1 rfl).1,
    ((hboth.2.1 rfl).2 (by decide)).1,
    ((hboth.2.1 rfl).2 (by decide)).2.1,
    ((hboth.2.1 rfl).2 (by decide)).2.2⟩,
    (hmix.2.1 rfl).1,
    ((hmix.2.1 rfl).2 (by decide)).1,
    ((hmix.2.1 rfl).2 (by decide)).2.1,
    ((hmix.2.1 rfl).2 (by decide)).2.2,
    hmix.2.2.1, hmix.2.2.2⟩

/-- C6 counterexample: when the source table's row count is 0, the
partition loop body never runs, so `_copy_table1_to_engine2` emits no
progress line at all — in particular no "0%" progress figure is
reported, contrary to the claim. -/
theorem C6_counterexample :
    (copy_table1_to_engine2 15000 ([] : List (List Nat))).progress = []
    ∧ ¬ (∃ pr, pr ∈ (copy_table1_to_engine2 15000 ([] : List (List Nat))).progress) := by
  have h : (copy_table1_to_engine2 15000 ([] : List (List Nat))).progress = [] := by
    simp [copy_table1_to_engine2, partitions]
  exact ⟨h, fun ⟨pr, hpr⟩ => absurd (h ▸ hpr) (List.not_mem_nil pr)⟩

/-- C6 amended: for every transfer in which the source table's total
row count is 0, the streaming result yields no partitions, so the loop
body never executes: no rows are inserted, the staging table stays
empty, and no progress line — hence no division by the zero row count
and no exception — is produced.  No 0% figure is reported because
nothing is reported. -/
theorem C6_zero_rows_skips_loop (n : Nat) (rows : List β) (h : rows.length = 0) :
    (copy_table1_to_engine2 n rows).progress = []
    ∧ (copy_table1_to_engine2 n rows).rows_inserted = 0
    ∧ (copy_table1_to_engine2 n rows).staged = [] := by
  have hrows : rows = [] := List.eq_nil_of_length_eq_zero h
  subst hrows
  refine ⟨?_, ?_, ?_⟩ <;> simp [copy_table1_to_engine2, partitions]

/-- Witness for C6 amended at the empty source table and the code's
batch size 15000. -/
theorem C6_zero_rows_skips_loop_witness :
    ([] : List (List Nat)).length = 0
    ∧ ((copy_table1_to_engine2 15000 ([] : List (List Nat))).progress = []
       ∧ (copy_table1_to_engine2 15000 ([] : List (List Nat))).rows_inserted = 0
       ∧ (copy_table1_to_engine2 15000 ([] : List (List Nat))).staged = []) :=
  ⟨rfl, C6_zero_rows_skips_loop 15000 ([] : List (List Nat)) rfl⟩

/-- C8: for a fixed source table, the accumulated `rows_inserted` total
after the last partition equals the source row count for every positive
batch size — so batch sizes 1, 100 and 15000 all stage the same rows
and yield the same final staged row count. -/
theorem C8_batch_size_invariance (rows : List β) (n m : Nat)
    (hn : 1 ≤ n) (hm : 1 ≤ m) :
    (copy_table1_to_engine2 n rows).rows_inserted
      = (copy_table1_to_engine2 m rows).rows_inserted
    ∧ (copy_table1_to_engine2 n rows).rows_inserted = rows.length
    ∧ (copy_table1_to_engine2 n rows).staged = rows
    ∧ (copy_table1_to_engine2 m rows).staged = rows := by
  have key : ∀ k : Nat, 1 ≤ k →
      (copy_table1_to_engine2 k rows).rows_inserted = rows.length
      ∧ (copy_table1_to_engine2 k rows).staged = rows := by
    intro k hk
    have hf : (partitions k rows).flatten = rows := partitions_flatten k hk rows
    constructor
    · show (partitions k rows).foldl (fun acc p => acc + p.length) 0 = rows.length
      rw [flatten_length_foldl, hf, Nat.zero_add]
    · exact hf
  obtain ⟨hn1, hn2⟩ := key n hn
  obtain ⟨hm1, hm2⟩ := key m hm
  exact ⟨hn1.trans hm1.symm, hn1, hn2, hm2⟩

/-- Witness for C8 at batch sizes 1 and 15000 over a 3-row source
table. -/
theorem C8_batch_size_invariance_witness :
    (copy_table1_to_engine2 1 [[1], [2], [3]]).rows_inserted
      = (copy_table1_to_engine2 15000 [[1], [2], [3]]).rows_inserted
    ∧ (copy_table1_to_engine2 1 [[1], [2], [3]]).rows_inserted = [[1], [2], [3]].length
    ∧ (copy_table1_to_engine2 1 [[1], [2], [3]]).staged = [[1], [2], [3]]
    ∧ (copy_table1_to_engine2 15000 [[1], [2], [3]]).staged = [[1], [2], [3]] :=
  C8_batch_size_invariance ([[1], [2], [3]] : List (List Nat)) 1 15000
    (by decide) (by decide)

/-- C4 counterexample: the column name "ID" is listed in the global
ignore collection, but `_create_drop_cols` stores it lower-cased and
the membership tests of lines 29 and 78 are case-sensitive, so a
reflected target column named "ID" survives both the staging-table
definition and the comparison projection.  This refutes "regardless of
the letter case the column name has in the reflected target schema". -/
theorem C4_counterexample :
    ("ID" : String) ∈ (["ID"] : List String)
    ∧ "ID" ∈ ((create_table1_in_engine2 [] "t" [{ name := "ID", ctype := "int" }]
        (create_drop_cols ["ID"] [] (EntrySpec.str "t"))).2.map Column.name)
    ∧ "ID" ∈ ((compare_tables [{ name := "ID", ctype := "int" }]
        (create_drop_cols ["ID"] [] (EntrySpec.str "t"))
        ([] : List (List Nat)) [] 0 0).projectionCols.map Column.name) := by
  refine ⟨by decide, by decide, by decide⟩

/-- C4 amended: for every table-pair and every column name listed in
the global ignore collection, the *case-folded* form of that name never
appears among the staging table's column definitions nor in the column
projection the comparator uses for either `EXCEPT` query; a reflected
target column is excluded exactly when its name equals such a
case-folded entry (matching is case-sensitive against the lower-cased
entry), not regardless of its letter case. -/
theorem C4_global_ignore_excluded [DecidableEq α] (ig : List String)
    (ic : List (String × IgnoreVal)) (e : EntrySpec) (t1cols : List Column)
    (t1name : String) (t2cols : List Column) (t2rows stg : List (List α))
    (rcA rcD : Int) (g : String) (hg : g ∈ ig) :
    ¬ lower g ∈ ((create_table1_in_engine2 t1cols t1name t2cols
        (create_drop_cols ig ic e)).2.map Column.name)
    ∧ ¬ lower g ∈ ((compare_tables t2cols (create_drop_cols ig ic e)
        t2rows stg rcA rcD).projectionCols.map Column.name) := by
  have hdrop : lower g ∈ create_drop_cols ig ic e := by
    rw [C3_amended_membership]
    exact Or.inl ⟨g, hg, rfl⟩
  constructor
  · intro hmem
    simp only [create_table1_in_engine2, List.mem_map, List.mem_filter,
      decide_not, Bool.not_eq_eq_eq_not, Bool.not_true, decide_eq_false_iff_not] at hmem
    obtain ⟨c, ⟨_, hcnot⟩, hcname⟩ := hmem
    exact hcnot (hcname ▸ hdrop)
  · intro hmem
    simp only [compare_tables, List.mem_map, List.mem_filter,
      decide_not, Bool.not_eq_eq_eq_not, Bool.not_true, decide_eq_false_iff_not] at hmem
    obtain ⟨c, ⟨_, hcnot⟩, hcname⟩ := hmem
    exact hcnot (hcname ▸ hdrop)

/-- Witness for C4 amended: with global ignore `["ID"]` the lower-cased
name "id" is excluded from staging columns and projection. -/
theorem C4_global_ignore_excluded_witness :
    ("ID" : String) ∈ (["ID"] : List String)
    ∧ (¬ lower "ID" ∈ ((create_table1_in_engine2 [] "t"
          [{ name := "id", ctype := "int" }]
          (create_drop_cols ["ID"] [] (EntrySpec.str "t"))).2.map Column.name)
       ∧ ¬ lower "ID" ∈ ((compare_tables [{ name := "id", ctype := "int" }]
          (create_drop_cols ["ID"] [] (EntrySpec.str "t"))
          ([] : List (List Nat)) [] 0 0).projectionCols.map Column.name)) :=
  ⟨by decide,
   C4_global_ignore_excluded ["ID"] [] (EntrySpec.str "t") [] "t"
     [{ name := "id", ctype := "int" }] ([] : List (List Nat)) [] 0 0 "ID"
     (by decide)⟩

/-- C5 counterexample: in the per-entry trace (one non-empty
partition), the staging DDL at position 3 runs inside the first
target-engine transaction — the one `table1_in_engine2.create(bind=
b.engine2)` opens and commits on line 167, before `engine2.begin()` on
line 170 — while the batch insert at position 9 and the `EXCEPT` query
at position 11 run inside the second.  So staging-table creation, data
load, and comparison do not all execute within one and the same
transaction on the target connection. -/
theorem C5_counterexample :
    (success_trace 1).get? 3 = some Ev.createStaging
    ∧ (success_trace 1).get? 9 = some Ev.insertBatch
    ∧ (success_trace 1).get? 11 = some Ev.exceptQuery
    ∧ txn2Of (success_trace 1) 9 = txn2Of (success_trace 1) 11
    ∧ txn2Of (success_trace 1) 3 ≠ txn2Of (success_trace 1) 9 := by
  refine ⟨by decide, by decide, by decide, by decide, by decide⟩

theorem rest_no_txnBegin (n : Nat) :
    ¬ Ev.txnBegin 2 ∈ (List.replicate n Ev.insertBatch ++
      [Ev.countQuery 2, Ev.exceptQuery, Ev.countQuery 2, Ev.exceptQuery,
       Ev.txnCommit 2, Ev.txnCommit 1]) := by
  simp [List.mem_append, List.mem_replicate]

/-- C5 amended: for every processed table-pair, the batch data load and
the comparison execute within one and the same transaction on the
target connection (the second target-engine transaction, opened by
`engine2.begin()` on line 170), but the staging-table creation executes
earlier, inside its own engine-level transaction (the first one, opened
and committed by `table1_in_engine2.create(bind=b.engine2)` on lines
33/167 before `engine2.begin()`); the trace contains no explicit
staging-table teardown. -/
theorem C5_load_and_compare_share_txn (n i : Nat) (e : Ev)
    (h : (success_trace n).get? i = some e) :
    ((e = Ev.insertBatch ∨ e = Ev.exceptQuery ∨ e = Ev.countQuery 2) →
      txn2Of (success_trace n) i = 2)
    ∧ (e = Ev.createStaging → txn2Of (success_trace n) i = 1)
    ∧ ¬ Ev.dropStaging ∈ success_trace n := by
  have hdrop : ¬ Ev.dropStaging ∈ success_trace n := by
    simp [success_trace, List.mem_append, List.mem_replicate]
  rcases Nat.lt_or_ge i 9 with hlt | hge
  · interval_cases i <;>
      simp only [success_trace, List.get?_cons_succ, List.get?_cons_zero,
        Option.some_inj] at h <;>
      subst h <;>
      refine ⟨?_, ?_, hdrop⟩ <;>
      simp [txn2Of, success_trace, List.take_succ_cons, List.count_cons]
  · obtain ⟨k, rfl⟩ : ∃ k, i = k + 9 := ⟨i - 9, by omega⟩
    have htr : success_trace n =
        [Ev.reflectTable 1, Ev.reflectTable 2, Ev.txnBegin 2, Ev.createStaging,
         Ev.txnCommit 2, Ev.txnBegin 1, Ev.txnBegin 2, Ev.countQuery 1,
         Ev.selectAll 1] ++
        (List.replicate n Ev.insertBatch ++
          [Ev.countQuery 2, Ev.exceptQuery, Ev.countQuery 2, Ev.exceptQuery,
           Ev.txnCommit 2, Ev.txnCommit 1]) := rfl
    have hk : (List.replicate n Ev.insertBatch ++
        [Ev.countQuery 2, Ev.exceptQuery, Ev.countQuery 2, Ev.exceptQuery,
         Ev.txnCommit 2, Ev.txnCommit 1]).get? k = some e := by
      rw [htr, List.get?_append_right (by simp)] at h
      simpa using h
    have htxn : txn2Of (success_trace n) (k + 9) = 2 := by
      rw [txn2Of, htr, List.take_append_eq_append_take, List.count_append]
      have h9 : ([Ev.reflectTable 1, Ev.reflectTable 2, Ev.txnBegin 2,
          Ev.createStaging, Ev.txnCommit 2, Ev.txnBegin 1, Ev.txnBegin 2,
          Ev.countQuery 1, Ev.selectAll 1] : List Ev).take (k + 9 + 1) =
          [Ev.reflectTable 1, Ev.reflectTable 2, Ev.txnBegin 2,
          Ev.createStaging, Ev.txnCommit 2, Ev.txnBegin 1, Ev.txnBegin 2,
          Ev.countQuery 1, Ev.selectAll 1] :=
        List.take_of_length_le (by simp)
      rw [h9]
      have hz : ((List.replicate n Ev.insertBatch ++
          [Ev.countQuery 2, Ev.exceptQuery, Ev.countQuery 2, Ev.exceptQuery,
           Ev.txnCommit 2, Ev.txnCommit 1]).take
            (k + 9 + 1 - ([Ev.reflectTable 1, Ev.reflectTable 2, Ev.txnBegin 2,
          Ev.createStaging, Ev.txnCommit 2, Ev.txnBegin 1, Ev.txnBegin 2,
          Ev.countQuery 1, Ev.selectAll 1] : List Ev).length)).count
            (Ev.txnBegin 2) = 0 :=
        List.count_eq_zero_of_not_mem
          (fun hm => rest_no_txnBegin n (List.mem_of_mem_take hm))
      rw [hz]
      decide
    refine ⟨fun _ => htxn, fun hcs => ?_, hdrop⟩
    subst hcs
    have hmem : Ev.createStaging ∈ (List.replicate n Ev.insertBatch ++
        [Ev.countQuery 2, Ev.exceptQuery, Ev.countQuery 2, Ev.exceptQuery,
         Ev.txnCommit 2, Ev.txnCommit 1]) := List.get?_mem hk
    simp [List.mem_append, List.mem_replicate] at hmem

/-- Witness for C5 amended: in the one-partition trace the batch insert
at position 9 runs in the second target-engine transaction, and the
trace has no explicit staging-table teardown. -/
theorem C5_load_and_compare_share_txn_witness :
    (success_trace 1).get? 9 = some Ev.insertBatch
    ∧ txn2Of (success_trace 1) 9 = 2
    ∧ ¬ Ev.dropStaging ∈ success_trace 1 := by
  have h := C5_load_and_compare_share_txn 1 9 Ev.insertBatch (by decide)
  exact ⟨by decide, h.1 (Or.inl rfl), h.2.2⟩

end DbQaDiff
